import Mathlib

/-! Shallow embedding of the ETL utility module
`SILVER_TRANFORMATIONS/utils.py` (Snowpark incremental-extraction
utilities) and proofs about its six functions.

Modelling choices:
- The Snowpark `Session` becomes an explicit state record holding the
  configuration table's rows and the named source tables, plus two
  fault-injection slots standing for failures of the underlying query
  engine (`lookupFault`: a failure raised while collecting from the
  configuration table; `sqlFault`: a failure raised while executing the
  update statement).  A `none` fault means the engine call succeeds.
- A `DataFrame` is a list of column names together with a list of rows;
  a cell is `Option String` (`none` models SQL NULL).  Timestamps are
  opaque strings ordered lexicographically, standing for the engine's
  native comparison.
- Python exceptions become the inductive `PyExc`; `raise X from e`
  becomes a constructor argument `cause` carrying the chained exception,
  and Python's `str(e)` becomes `errStr`.
- Functions that mutate external state (`update_config`) return the new
  `Session`; all other functions return no session, which makes their
  freedom from side effects structural.
-/

namespace SilverUtils

/-- Exception model: the module's `ConfigError` and `DataError`
(each carrying its message and its `from e` chained cause) plus a
catch-all for exceptions raised by the Snowpark engine itself. -/
inductive PyExc where
  | ConfigError (msg : String) (cause : Option PyExc)
  | DataError (msg : String) (cause : Option PyExc)
  | SnowparkError (msg : String)

/-- Python `str(e)`: the exception's message. -/
def errStr : PyExc → String
  | PyExc.ConfigError m _ => m
  | PyExc.DataError m _ => m
  | PyExc.SnowparkError m => m

/-- Constant `CONFIG_TABLE` from the module. -/
def CONFIG_TABLE : String := "UTILS.CONFIG.DEV_CONFIG_TABLES"

/-- Constant `TIMESTAMP_FIELD` from the module. -/
def TIMESTAMP_FIELD : String := "current_timestamp"

/-- One row of the configuration table: a table name and its
`silver_last_update` watermark string. -/
structure ConfigRecord where
  table_name : String
  silver_last_update : String
deriving DecidableEq

/-- A tabular result set: column names plus rows of nullable cells. -/
structure DataFrame where
  columns : List String
  rows : List (List (Option String))
deriving DecidableEq

/-- The session state: configuration rows, source tables by name, and
the two engine fault-injection slots. -/
structure Session where
  configRows : List ConfigRecord
  sourceTables : List (String × DataFrame)
  lookupFault : Option String
  sqlFault : Option String
deriving DecidableEq

/-- Snowpark column type descriptors, as far as `is_simple_type`
inspects them: the three complex kinds (`MapType`, `ArrayType`,
`StructType`, with their type parameters) and the scalar kinds. -/
inductive DataType where
  | MapType (keyType : DataType) (valueType : DataType)
  | ArrayType (elementType : DataType)
  | StructType (fields : List (String × DataType))
  | IntegerType
  | LongType
  | FloatType
  | DoubleType
  | DecimalType (precision scale : Nat)
  | StringType
  | BooleanType
  | DateType
  | TimestampType
  | BinaryType
  | VariantType

/-- `session.table(CONFIG_TABLE).filter(col "table_name" == t).select("silver_last_update").collect()`:
either the injected engine fault fires, or the matching records'
`silver_last_update` values are returned (one selected column per row). -/
def collect_config (session : Session) (table_name : String) :
    Except PyExc (List String) :=
  match session.lookupFault with
  | some f => Except.error (PyExc.SnowparkError f)
  | none =>
      Except.ok ((session.configRows.filter
        (fun r => r.table_name == table_name)).map
        (fun r => r.silver_last_update))

/-- Body of the `try` block of `find_last_update_date`: collect the
matching configuration rows, raise `ConfigError` if there are none,
otherwise return `result[0][0]`. -/
def find_last_update_date_body (session : Session) (table_name : String) :
    Except PyExc String :=
  match collect_config session table_name with
  | Except.error e => Except.error e
  | Except.ok [] =>
      Except.error (PyExc.ConfigError
        ("No configuration found for table " ++ table_name) none)
  | Except.ok (v :: _) => Except.ok v

/-- `find_last_update_date`: the `try` body, with every escaping
exception `e` re-raised as
`ConfigError("Failed to retrieve last update date for {t}: {str(e)}") from e`. -/
def find_last_update_date (session : Session) (table_name : String) :
    Except PyExc String :=
  match find_last_update_date_body session table_name with
  | Except.ok v => Except.ok v
  | Except.error e =>
      Except.error (PyExc.ConfigError
        ("Failed to retrieve last update date for " ++ table_name ++ ": "
          ++ errStr e) (some e))

/-- `session.table(name)`: look the table up among the session's source
tables; an unknown name raises an engine error. -/
def session_table (session : Session) (table_name : String) :
    Except PyExc DataFrame :=
  match session.sourceTables.find? (fun p => p.fst == table_name) with
  | some p => Except.ok p.snd
  | none =>
      Except.error (PyExc.SnowparkError
        ("Object " ++ table_name ++ " does not exist"))

/-- Lexicographic strict order on character lists, standing for the
query engine's native ordering of the opaque timestamp strings. -/
def lexLt : List Char → List Char → Bool
  | _, [] => false
  | [], _ :: _ => true
  | a :: as, b :: bs =>
      if a.toNat < b.toNat then true
      else if b.toNat < a.toNat then false
      else lexLt as bs

/-- Strict order on timestamp strings (lexicographic on their
characters). -/
def str_lt (a b : String) : Bool := lexLt a.data b.data

/-- The row predicate of `filter(col(TIMESTAMP_FIELD) > last_update)`:
true when the cell at column index `i` is non-NULL and strictly exceeds
the watermark (SQL three-valued logic drops NULL comparisons). -/
def ts_exceeds (row : List (Option String)) (i : Nat) (w : String) : Bool :=
  match row.getD i none with
  | some v => str_lt w v
  | none => false

/-- `df.filter(col(TIMESTAMP_FIELD) > last_update)`: resolve the
timestamp column by name (a missing column raises an engine error) and
keep the rows whose timestamp strictly exceeds the watermark. -/
def df_filter_ts_gt (df : DataFrame) (last_update : String) :
    Except PyExc DataFrame :=
  match df.columns.findIdx? (fun nm => nm == TIMESTAMP_FIELD) with
  | none =>
      Except.error (PyExc.SnowparkError
        ("invalid identifier " ++ TIMESTAMP_FIELD))
  | some i =>
      Except.ok { df with rows := df.rows.filter (fun row => ts_exceeds row i last_update) }

/-- Body of the `try` block of `find_delta`: load the table, filter it
by the watermark, and pair the filtered frame with its row count. -/
def find_delta_body (session : Session) (table_name last_update : String) :
    Except PyExc (DataFrame × Nat) :=
  match session_table session table_name with
  | Except.error e => Except.error e
  | Except.ok t =>
      match df_filter_ts_gt t last_update with
      | Except.error e => Except.error e
      | Except.ok df => Except.ok (df, df.rows.length)

/-- `find_delta`: the `try` body, with every escaping exception wrapped
as `DataError("Failed to find delta records for {t}: {str(e)}") from e`. -/
def find_delta (session : Session) (table_name last_update : String) :
    Except PyExc (DataFrame × Nat) :=
  match find_delta_body session table_name last_update with
  | Except.ok r => Except.ok r
  | Except.error e =>
      Except.error (PyExc.DataError
        ("Failed to find delta records for " ++ table_name ++ ": "
          ++ errStr e) (some e))

/-- SQL `MAX` over the column at index `i`: NULL cells are skipped, and
the maximum of an empty (or all-NULL) column is NULL. -/
def max_ts (rows : List (List (Option String))) (i : Nat) : Option String :=
  rows.foldl (fun acc row =>
    match row.getD i none with
    | none => acc
    | some v =>
        match acc with
        | none => some v
        | some m => if str_lt m v then some v else some m) none

/-- Body of the `try` block of `find_latest_timestamp`:
`df.agg({TIMESTAMP_FIELD: "max"}).collect()[0][0]`.  Aggregation over a
missing column raises an engine error; otherwise it yields exactly one
row whose single cell is the column maximum (NULL when the frame has no
rows). -/
def find_latest_timestamp_body (df : DataFrame) :
    Except PyExc (Option String) :=
  match df.columns.findIdx? (fun nm => nm == TIMESTAMP_FIELD) with
  | none =>
      Except.error (PyExc.SnowparkError
        ("invalid identifier " ++ TIMESTAMP_FIELD))
  | some i => Except.ok (max_ts df.rows i)

/-- `find_latest_timestamp`: the `try` body, with every escaping
exception wrapped as `DataError("Failed to find latest timestamp: {str(e)}") from e`.
The `-> str` annotation notwithstanding, the Python function returns the
collected cell as-is, so the result models `None` as `Option.none`. -/
def find_latest_timestamp (df : DataFrame) : Except PyExc (Option String) :=
  match find_latest_timestamp_body df with
  | Except.ok v => Except.ok v
  | Except.error e =>
      Except.error (PyExc.DataError
        ("Failed to find latest timestamp: " ++ errStr e) (some e))

/-- Effect of the UPDATE statement issued by `update_config` on the
configuration rows: every row whose `table_name` matches has its
`silver_last_update` set to the new value; all other rows are kept. -/
def run_update_sql (rows : List ConfigRecord) (table_name latest : String) :
    List ConfigRecord :=
  rows.map (fun r =>
    if r.table_name == table_name then
      { r with silver_last_update := latest }
    else r)

/-- `update_config`: execute the UPDATE against the session state
(unless the injected engine fault fires), wrapping any failure as
`ConfigError("Failed to update configuration for {t}: {str(e)}") from e`.
The Python function returns `None`; here the mutated session is
returned to make the store's new state observable. -/
def update_config (session : Session) (table_name latest_timestamp : String) :
    Except PyExc Session :=
  match session.sqlFault with
  | some f =>
      Except.error (PyExc.ConfigError
        ("Failed to update configuration for " ++ table_name ++ ": " ++ f)
        (some (PyExc.SnowparkError f)))
  | none =>
      Except.ok { session with
        configRows := run_update_sql session.configRows table_name latest_timestamp }

/-- The row predicate of `dropna(how="all")`: a row is kept iff at least
one of its cells is non-NULL. -/
def row_not_all_null (row : List (Option String)) : Bool :=
  row.any (fun c => c.isSome)

/-- `df.dropna(how="all")`: drop the rows in which every cell is NULL. -/
def dropna_all (df : DataFrame) : DataFrame :=
  { df with rows := df.rows.filter (fun row => row_not_all_null row) }

/-- `remove_null_rows`: count, drop the all-NULL rows, and return the
cleaned frame together with `initial_count - cleaned_count`.  The pure
counting and filtering of the model cannot raise, so the `try` body
always succeeds. -/
def remove_null_rows (delta_df : DataFrame) :
    Except PyExc (DataFrame × Nat) :=
  let initial_count := delta_df.rows.length
  let cleaned_df := dropna_all delta_df
  let null_count := initial_count - cleaned_df.rows.length
  Except.ok (cleaned_df, null_count)

/-- `is_simple_type`: true iff the descriptor is not an instance of
`MapType`, `ArrayType` or `StructType`. -/
def is_simple_type (data_type : DataType) : Bool :=
  match data_type with
  | DataType.MapType _ _ => false
  | DataType.ArrayType _ => false
  | DataType.StructType _ => false
  | _ => true

/-- The exception live inside `find_last_update_date`'s `try` block when
the lookup goes wrong: the injected engine fault if there is one,
otherwise the not-found `ConfigError`. -/
def lookup_cause (session : Session) (table_name : String) : PyExc :=
  match session.lookupFault with
  | some f => PyExc.SnowparkError f
  | none =>
      PyExc.ConfigError ("No configuration found for table " ++ table_name) none

/-- Whether a result is a success (no exception escaped). -/
def isOkE {α : Type} (x : Except PyExc α) : Bool :=
  match x with
  | Except.ok _ => true
  | Except.error _ => false

/-- Concrete configuration record used by the worked examples. -/
def ordersRecord : ConfigRecord :=
  { table_name := "ORDERS", silver_last_update := "2024-01-01T00:00:00" }

/-- Concrete source table with five rows straddling the watermark. -/
def ordersTable : DataFrame :=
  { columns := ["id", "current_timestamp"],
    rows := [
      [some "1", some "2023-12-31T00:00:00"],
      [some "2", some "2024-01-01T00:00:00"],
      [some "3", some "2024-01-02T00:00:00"],
      [some "4", some "2024-01-03T00:00:00"],
      [some "5", some "2024-01-03T00:00:00"]] }

/-- Concrete healthy session holding `ordersRecord` and `ordersTable`. -/
def baseSession : Session :=
  { configRows := [ordersRecord],
    sourceTables := [("ORDERS", ordersTable)],
    lookupFault := none,
    sqlFault := none }

/-- The delta of `ordersTable` past the `2024-01-01T00:00:00` watermark. -/
def ordersDelta : DataFrame :=
  { columns := ["id", "current_timestamp"],
    rows := [
      [some "3", some "2024-01-02T00:00:00"],
      [some "4", some "2024-01-03T00:00:00"],
      [some "5", some "2024-01-03T00:00:00"]] }

/-- Concrete empty result set that still carries the timestamp column. -/
def dfEmptyTs : DataFrame :=
  { columns := ["current_timestamp"], rows := [] }

/-- Concrete session whose configuration lookup fails at the engine. -/
def sessLookupFault : Session :=
  { configRows := [ordersRecord],
    sourceTables := [],
    lookupFault := some "connection is closed",
    sqlFault := none }

/-- Concrete session before the idempotence experiment. -/
def sessIdem0 : Session :=
  { configRows := [{ table_name := "A", silver_last_update := "t0" }],
    sourceTables := [],
    lookupFault := none,
    sqlFault := none }

/-- `sessIdem0` after its watermark for table `A` is set to `t1`. -/
def sessIdem1 : Session :=
  { configRows := [{ table_name := "A", silver_last_update := "t1" }],
    sourceTables := [],
    lookupFault := none,
    sqlFault := none }

/-- Concrete session with a record for `B` only. -/
def sessNoRec : Session :=
  { configRows := [{ table_name := "B", silver_last_update := "t0" }],
    sourceTables := [],
    lookupFault := none,
    sqlFault := none }

/-- Concrete session with two configuration records for table `D`. -/
def sessDup : Session :=
  { configRows := [
      { table_name := "D", silver_last_update := "x1" },
      { table_name := "D", silver_last_update := "x2" }],
    sourceTables := [],
    lookupFault := none,
    sqlFault := none }

/-- Concrete frame with one all-NULL row among three. -/
def dfNulls : DataFrame :=
  { columns := ["a", "b"],
    rows := [[some "1", none], [none, none], [none, some "2"]] }

/-- `dfNulls` after the all-NULL row is dropped. -/
def dfCleaned : DataFrame :=
  { columns := ["a", "b"],
    rows := [[some "1", none], [none, some "2"]] }

/-- The lexicographic order is irreflexive. -/
theorem lexLt_irrefl (l : List Char) : lexLt l l = false := by
  induction l with
  | nil => rfl
  | cons a as ih => simp [lexLt, ih]

/-- The timestamp-string order is irreflexive. -/
theorem str_lt_irrefl (w : String) : str_lt w w = false :=
  lexLt_irrefl w.data

/-- C4: for a table name matched by exactly one configuration record,
`find_last_update_date` returns that record's `silver_last_update`
string.  The function's result type carries no session, so it can have
no effect on the configuration store. -/
theorem find_last_update_date_single (s : Session) (n : String)
    (r : ConfigRecord) (hf : s.lookupFault = none)
    (hm : s.configRows.filter (fun x => x.table_name == n) = [r]) :
    find_last_update_date s n = Except.ok r.silver_last_update := by
  simp [find_last_update_date, find_last_update_date_body, collect_config,
    hf, hm]

/-- C4 witness: on the concrete `baseSession`, the watermark of table
`ORDERS` is read back exactly. -/
theorem find_last_update_date_single_witness :
    baseSession.lookupFault = none ∧
    baseSession.configRows.filter (fun x => x.table_name == "ORDERS")
      = [ordersRecord] ∧
    find_last_update_date baseSession "ORDERS"
      = Except.ok ordersRecord.silver_last_update :=
  ⟨rfl, by decide,
    find_last_update_date_single baseSession "ORDERS" ordersRecord rfl
      (by decide)⟩

/-- C9: when several configuration records match the table name,
`find_last_update_date` does not fail: it returns the
`silver_last_update` of the first matching record and ignores the
rest. -/
theorem find_last_update_date_first_of_many (s : Session) (n : String)
    (r : ConfigRecord) (rs : List ConfigRecord)
    (hf : s.lookupFault = none)
    (hm : s.configRows.filter (fun x => x.table_name == n) = r :: rs)
    (_hmore : rs ≠ []) :
    find_last_update_date s n = Except.ok r.silver_last_update := by
  simp [find_last_update_date, find_last_update_date_body, collect_config,
    hf, hm]

/-- C9 witness: on `sessDup`, whose two records both name table `D`,
the first record's value `x1` is returned. -/
theorem find_last_update_date_first_of_many_witness :
    sessDup.lookupFault = none ∧
    sessDup.configRows.filter (fun x => x.table_name == "D")
      = [{ table_name := "D", silver_last_update := "x1" },
         { table_name := "D", silver_last_update := "x2" }] ∧
    find_last_update_date sessDup "D" = Except.ok "x1" :=
  ⟨rfl, by decide,
    find_last_update_date_first_of_many sessDup "D"
      { table_name := "D", silver_last_update := "x1" }
      [{ table_name := "D", silver_last_update := "x2" }]
      rfl (by decide) (by decide)⟩

/-- C10: when zero records match (and the lookup itself succeeds), the
error observed by the caller is the outer wrapper `ConfigError`: its
message is the wrapping text with the not-found message embedded after
the colon, and its chained cause is the bare not-found `ConfigError`. -/
theorem find_last_update_date_not_found_wrapped (s : Session) (n : String)
    (hf : s.lookupFault = none)
    (hm : s.configRows.filter (fun x => x.table_name == n) = []) :
    find_last_update_date s n =
      Except.error (PyExc.ConfigError
        ("Failed to retrieve last update date for " ++ n ++ ": "
          ++ ("No configuration found for table " ++ n))
        (some (PyExc.ConfigError
          ("No configuration found for table " ++ n) none))) := by
  simp [find_last_update_date, find_last_update_date_body, collect_config,
    hf, hm, errStr]

/-- C10 witness: looking up the unconfigured table `C` in `sessNoRec`
yields the wrapped not-found error with the inner error as cause. -/
theorem find_last_update_date_not_found_wrapped_witness :
    sessNoRec.lookupFault = none ∧
    sessNoRec.configRows.filter (fun x => x.table_name == "C") = [] ∧
    find_last_update_date sessNoRec "C" =
      Except.error (PyExc.ConfigError
        ("Failed to retrieve last update date for " ++ "C" ++ ": "
          ++ ("No configuration found for table " ++ "C"))
        (some (PyExc.ConfigError
          ("No configuration found for table " ++ "C") none))) :=
  ⟨rfl, by decide,
    find_last_update_date_not_found_wrapped sessNoRec "C" rfl (by decide)⟩

/-- C3: whenever the lookup fails at the engine or zero records match,
`find_last_update_date` returns no value: it fails with a `ConfigError`
whose message wraps the underlying failure's message and whose chained
cause is that underlying failure (`lookup_cause`). -/
theorem find_last_update_date_error_wrapped (s : Session) (n : String)
    (h : s.lookupFault.isSome = true ∨
      s.configRows.filter (fun x => x.table_name == n) = []) :
    find_last_update_date s n =
      Except.error (PyExc.ConfigError
        ("Failed to retrieve last update date for " ++ n ++ ": "
          ++ errStr (lookup_cause s n))
        (some (lookup_cause s n))) := by
  cases hf : s.lookupFault with
  | some f =>
      simp [find_last_update_date, find_last_update_date_body,
        collect_config, lookup_cause, hf, errStr]
  | none =>
      rcases h with h | h
      · rw [hf] at h
        simp at h
      · simp [find_last_update_date, find_last_update_date_body,
          collect_config, lookup_cause, hf, h, errStr]

/-- C3 witness: on `sessLookupFault` the engine failure
`connection is closed` is wrapped into the `ConfigError` and chained as
its cause. -/
theorem find_last_update_date_error_wrapped_witness :
    (sessLookupFault.lookupFault.isSome = true ∨
      sessLookupFault.configRows.filter
        (fun x => x.table_name == "ORDERS") = []) ∧
    find_last_update_date sessLookupFault "ORDERS" =
      Except.error (PyExc.ConfigError
        ("Failed to retrieve last update date for " ++ "ORDERS" ++ ": "
          ++ errStr (lookup_cause sessLookupFault "ORDERS"))
        (some (lookup_cause sessLookupFault "ORDERS"))) :=
  ⟨Or.inl rfl,
    find_last_update_date_error_wrapped sessLookupFault "ORDERS"
      (Or.inl rfl)⟩

/-- C2 counterexample: on the concrete empty result set `dfEmptyTs`,
`find_latest_timestamp` does not fail with `DataError`; it succeeds and
returns the NULL (absent) value, refuting the claim as stated. -/
theorem find_latest_timestamp_empty_cex :
    find_latest_timestamp dfEmptyTs = Except.ok none ∧
    isOkE (find_latest_timestamp dfEmptyTs) = true :=
  ⟨rfl, rfl⟩

/-- C2 amended: on every result set that carries the
`current_timestamp` column and has zero rows, `find_latest_timestamp`
succeeds and returns the NULL (absent) value — `MAX` over no rows is
NULL, and the code returns the collected cell unchecked. -/
theorem find_latest_timestamp_empty_ok (df : DataFrame) (i : Nat)
    (hi : df.columns.findIdx? (fun nm => nm == TIMESTAMP_FIELD) = some i)
    (hrows : df.rows = []) :
    find_latest_timestamp df = Except.ok none := by
  simp [find_latest_timestamp, find_latest_timestamp_body, hi, hrows,
    max_ts]

/-- C2 amended witness: the amended statement instantiated at
`dfEmptyTs`. -/
theorem find_latest_timestamp_empty_ok_witness :
    dfEmptyTs.columns.findIdx? (fun nm => nm == TIMESTAMP_FIELD)
      = some 0 ∧
    dfEmptyTs.rows = [] ∧
    find_latest_timestamp dfEmptyTs = Except.ok none :=
  ⟨rfl, rfl, find_latest_timestamp_empty_ok dfEmptyTs 0 rfl rfl⟩

/-- C1: on a session where the source table `T` resolves and carries
the `current_timestamp` column at index `i`, the count returned by
`find_delta` is the number of rows of `T` whose timestamp strictly
exceeds the watermark `W`, and no row whose timestamp equals `W`
survives into the delta. -/
theorem find_delta_count_correct (s : Session) (T W : String)
    (t df : DataFrame) (c i : Nat)
    (ht : session_table s T = Except.ok t)
    (hi : t.columns.findIdx? (fun nm => nm == TIMESTAMP_FIELD) = some i)
    (h : find_delta s T W = Except.ok (df, c)) :
    c = t.rows.countP (fun row => ts_exceeds row i W) ∧
    df.rows.all (fun row => !(row.getD i none == some W)) = true := by
  have hb : find_delta_body s T W =
      Except.ok
        ({ t with rows := t.rows.filter (fun row => ts_exceeds row i W) },
          (t.rows.filter (fun row => ts_exceeds row i W)).length) := by
    simp [find_delta_body, df_filter_ts_gt, ht, hi]
  unfold find_delta at h
  rw [hb] at h
  simp only [Except.ok.injEq, Prod.mk.injEq] at h
  obtain ⟨hdf, hc⟩ := h
  subst hdf
  subst hc
  constructor
  · simp [List.countP_eq_length_filter]
  · rw [List.all_eq_true]
    intro row hrow
    have hp := (List.mem_filter.mp hrow).2
    cases hcell : row.getD i none with
    | none => simp [hcell]
    | some v =>
        simp only [ts_exceeds, hcell] at hp
        simp only [hcell, Bool.not_eq_eq_eq_not, Bool.not_true,
          beq_eq_false_iff_ne, ne_eq, Option.some.injEq]
        intro hvW
        rw [hvW, str_lt_irrefl] at hp
        simp at hp

/-- C1 witness: on `baseSession`, the delta of `ORDERS` past the
watermark `2024-01-01T00:00:00` has exactly the three strictly newer
rows, and the row equal to the watermark is excluded. -/
theorem find_delta_count_correct_witness :
    session_table baseSession "ORDERS" = Except.ok ordersTable ∧
    ordersTable.columns.findIdx? (fun nm => nm == TIMESTAMP_FIELD)
      = some 1 ∧
    find_delta baseSession "ORDERS" "2024-01-01T00:00:00"
      = Except.ok (ordersDelta, 3) ∧
    (3 = ordersTable.rows.countP
        (fun row => ts_exceeds row 1 "2024-01-01T00:00:00") ∧
      ordersDelta.rows.all
        (fun row => !(row.getD 1 none == some "2024-01-01T00:00:00"))
        = true) :=
  ⟨rfl, rfl, rfl,
    find_delta_count_correct baseSession "ORDERS" "2024-01-01T00:00:00"
      ordersTable ordersDelta 3 1 rfl rfl rfl⟩

/-- Applying the UPDATE row transformer twice with the same value is
the same as applying it once. -/
theorem run_update_sql_idem (rows : List ConfigRecord) (n ts : String) :
    run_update_sql (run_update_sql rows n ts) n ts
      = run_update_sql rows n ts := by
  unfold run_update_sql
  rw [List.map_map]
  apply List.map_congr_left
  intro r _
  by_cases hr : (r.table_name == n) = true
  · simp [Function.comp, hr]
  · simp [Function.comp, hr]

/-- C5: `update_config` is idempotent: if writing the watermark
succeeds and re-running the write with the same value succeeds again,
the session after the second run equals the session after the first. -/
theorem update_config_idempotent (s s1 s2 : Session) (n ts : String)
    (h1 : update_config s n ts = Except.ok s1)
    (h2 : update_config s1 n ts = Except.ok s2) :
    s2 = s1 := by
  obtain ⟨cr, st, lf, qf⟩ := s
  cases qf with
  | some f => simp [update_config] at h1
  | none =>
      simp only [update_config] at h1
      injection h1 with h1
      subst h1
      simp only [update_config] at h2
      injection h2 with h2
      rw [← h2, run_update_sql_idem]

/-- C5 witness: writing `t1` for table `A` twice on `sessIdem0` gives
the same session `sessIdem1` after each run. -/
theorem update_config_idempotent_witness :
    update_config sessIdem0 "A" "t1" = Except.ok sessIdem1 ∧
    update_config sessIdem1 "A" "t1" = Except.ok sessIdem1 ∧
    sessIdem1 = sessIdem1 :=
  ⟨rfl, rfl,
    update_config_idempotent sessIdem0 sessIdem1 sessIdem1 "A" "t1"
      rfl rfl⟩

/-- When no configuration row matches the table name, the UPDATE row
transformer leaves the rows unchanged. -/
theorem run_update_sql_no_match (rows : List ConfigRecord) (n ts : String)
    (hm : rows.filter (fun r => r.table_name == n) = []) :
    run_update_sql rows n ts = rows := by
  revert hm
  induction rows with
  | nil => intro hm; rfl
  | cons r rs ih =>
      intro hm
      rw [List.filter_cons] at hm
      cases hr : (r.table_name == n) with
      | true => rw [hr] at hm; simp at hm
      | false =>
          rw [hr] at hm
          simp only [Bool.false_eq_true, if_false] at hm
          have ih2 := ih hm
          unfold run_update_sql at ih2 ⊢
          simp only [List.map_cons, hr, Bool.false_eq_true, if_false, ih2]

/-- C6: with no matching configuration record, `update_config`
succeeds when the statement executes, affecting zero rows and leaving
the session (hence the configuration store) unchanged; and the call
fails exactly when the statement itself fails to execute. -/
theorem update_config_zero_rows (s : Session) (n ts : String)
    (hm : s.configRows.filter (fun r => r.table_name == n) = []) :
    (s.sqlFault = none → update_config s n ts = Except.ok s) ∧
    (isOkE (update_config s n ts) = true ↔ s.sqlFault = none) := by
  obtain ⟨cr, st, lf, qf⟩ := s
  cases qf with
  | some f =>
      constructor
      · intro hf; simp at hf
      · simp [update_config, isOkE]
  | none =>
      constructor
      · intro hf
        simp [update_config, run_update_sql_no_match cr n ts hm]
      · simp [update_config, isOkE]

/-- C6 witness: updating the unconfigured table `C` on `sessNoRec`
succeeds and returns the session unchanged. -/
theorem update_config_zero_rows_witness :
    sessNoRec.configRows.filter (fun r => r.table_name == "C") = [] ∧
    ((sessNoRec.sqlFault = none →
        update_config sessNoRec "C" "t9" = Except.ok sessNoRec) ∧
      (isOkE (update_config sessNoRec "C" "t9") = true ↔
        sessNoRec.sqlFault = none)) :=
  ⟨by decide, update_config_zero_rows sessNoRec "C" "t9" (by decide)⟩

/-- Dropping the rows that fail `p` removes exactly the rows that
satisfy the negation of `p`. -/
theorem length_sub_filter_eq_countP_not (l : List (List (Option String)))
    (p : List (Option String) → Bool) :
    l.length - (l.filter p).length = l.countP (fun a => !(p a)) := by
  induction l with
  | nil => rfl
  | cons a as ih =>
      rw [List.filter_cons, List.countP_cons]
      cases hp : p a with
      | true => simp [hp, Nat.succ_sub_succ, ih]
      | false =>
          have hle := List.length_filter_le p as
          simp [hp]
          omega

/-- C7: `remove_null_rows` reports `initial - final` as the removed
count, that count is exactly the number of all-NULL rows, every row
with at least one non-NULL cell is kept, and no row is invented. -/
theorem remove_null_rows_correct (df cleaned : DataFrame) (removed : Nat)
    (h : remove_null_rows df = Except.ok (cleaned, removed)) :
    removed = df.rows.length - cleaned.rows.length ∧
    removed = df.rows.countP (fun row => !(row_not_all_null row)) ∧
    df.rows.all (fun row =>
      !(row_not_all_null row) || cleaned.rows.contains row) = true ∧
    cleaned.rows.all (fun row => df.rows.contains row) = true := by
  simp only [remove_null_rows, Except.ok.injEq, Prod.mk.injEq] at h
  obtain ⟨hcl, hrm⟩ := h
  subst hcl
  subst hrm
  refine ⟨rfl, ?_, ?_, ?_⟩
  · simp only [dropna_all]
    exact length_sub_filter_eq_countP_not df.rows row_not_all_null
  · rw [List.all_eq_true]
    intro row hrow
    rw [Bool.or_eq_true]
    cases hp : row_not_all_null row with
    | false => left; simp [hp]
    | true =>
        right
        exact List.elem_iff.mpr (List.mem_filter.mpr ⟨hrow, hp⟩)
  · rw [List.all_eq_true]
    intro row hrow
    simp only [dropna_all] at hrow
    exact List.elem_iff.mpr (List.mem_filter.mp hrow).1

/-- C7 witness: on `dfNulls` the single all-NULL row is removed, the
rows with a non-NULL cell are kept, and the reported count is 1. -/
theorem remove_null_rows_correct_witness :
    remove_null_rows dfNulls = Except.ok (dfCleaned, 1) ∧
    (1 = dfNulls.rows.length - dfCleaned.rows.length ∧
      1 = dfNulls.rows.countP (fun row => !(row_not_all_null row)) ∧
      dfNulls.rows.all (fun row =>
        !(row_not_all_null row) || dfCleaned.rows.contains row) = true ∧
      dfCleaned.rows.all (fun row => dfNulls.rows.contains row) = true) :=
  ⟨rfl, remove_null_rows_correct dfNulls dfCleaned 1 rfl⟩

/-- C8: `is_simple_type` is a total Boolean predicate that returns
false exactly on the mapping, array and nested-record descriptors and
true on every other descriptor. -/
theorem is_simple_type_iff (t : DataType) :
    is_simple_type t = false ↔
      (∃ k v, t = DataType.MapType k v) ∨
      (∃ e, t = DataType.ArrayType e) ∨
      (∃ fs, t = DataType.StructType fs) := by
  cases t <;> simp [is_simple_type]

end SilverUtils
